import Mathlib

/-!
# Verification of the AppSync subscription-link factory

Shallow embedding of `src/packages/aws-appsync-subscription-link/src/index.ts`:
the link factory `createSubscriptionHandshakeLink`, the inline control-events
extraction link, and the `ApolloLink.split` dispatch predicate, together with
the JavaScript value/object semantics the code relies on (destructuring with a
computed key and rest-spread, the `typeof x !== "undefined"` guard).
-/

namespace AppSync

/-- A JavaScript runtime value, as far as the embedded code can observe one:
`undefined`, booleans, numbers, strings, and plain objects (ordered own
enumerable properties). -/
inductive JSValue where
  | undefined : JSValue
  | boolean : Bool → JSValue
  | number : Int → JSValue
  | string : String → JSValue
  | object : List (String × JSValue) → JSValue
deriving Inhabited

/-- A JavaScript object as a list of own enumerable properties in insertion
order. Real objects have unique keys; lookup takes the first occurrence. -/
abbrev JSObject := List (String × JSValue)

/-- The JavaScript `typeof` operator restricted to the values of `JSValue`. -/
def JSValue.typeof : JSValue → String
  | .undefined => "undefined"
  | .boolean _ => "boolean"
  | .number _ => "number"
  | .string _ => "string"
  | .object _ => "object"

/-- JavaScript property read `obj[k]`: `undefined` when the key is absent.
A key present with value `undefined` and an absent key read the same. -/
def jsGet (obj : JSObject) (k : String) : JSValue :=
  match obj.find? (fun p => p.1 == k) with
  | some p => p.2
  | none => JSValue.undefined

/-- The rest-spread `{ [k]: _, ...rest }`: every own enumerable property except
`k`, in order, keys with `undefined` values included. -/
def jsRest (obj : JSObject) (k : String) : JSObject :=
  obj.filter (fun p => p.1 != k)

/-- Key presence, JavaScript `k in obj`. Distinguishes a key stored with value
`undefined` (present) from an absent key. -/
def jsHasKey (obj : JSObject) (k : String) : Bool :=
  obj.any (fun p => p.1 == k)

/-- Modelled from the spec: the reserved control-event key, "a single
well-known string constant" imported from `./subscription-handshake-link`
(that module is not under src/). Its exact spelling is irrelevant to every
claim; only that it is one fixed string. -/
def CONTROL_EVENTS_KEY : String := "@@controlEvents"

/-! ## GraphQL documents and operations -/

/-- The three GraphQL operation types. -/
inductive OperationType where
  | query : OperationType
  | mutation : OperationType
  | subscription : OperationType
deriving Repr, DecidableEq

/-- A top-level definition of a parsed GraphQL document: an operation
definition or a fragment definition. -/
inductive GraphQLDefinition where
  | operationDefinition (operation : OperationType) : GraphQLDefinition
  | fragmentDefinition (name : String) : GraphQLDefinition
deriving Repr, DecidableEq

/-- The `kind` field of a definition node, as the string the code compares
against. -/
def GraphQLDefinition.kind : GraphQLDefinition → String
  | .operationDefinition _ => "OperationDefinition"
  | .fragmentDefinition _ => "FragmentDefinition"

/-- Reading `.operation` through the `as OperationDefinitionNode` cast in the
source: a fragment definition node has no `operation` field, so the read
yields `undefined` (`none`). -/
def GraphQLDefinition.operationField : GraphQLDefinition → Option OperationType
  | .operationDefinition op => some op
  | .fragmentDefinition _ => none

/-- Modelled from the spec: the external document classifier
`mainDefinition(document) -> {kind, operationType}` (Apollo's
`getMainDefinition`, not part of this repository): the first operation
definition of the document, else the first fragment definition; `none` for a
document with no definitions (where the collaborator faults). -/
def getMainDefinition (doc : List GraphQLDefinition) : Option GraphQLDefinition :=
  match doc.find? (fun d => d.kind == "OperationDefinition") with
  | some d => some d
  | none => doc.find? (fun d => d.kind == "FragmentDefinition")

/-- An Apollo operation as this code observes it: a parsed query document and
a variables object. `variables` is `none` when `operation.variables` is the
JavaScript value `undefined` (entirely absent). -/
structure Operation where
  query : List GraphQLDefinition
  «variables» : Option JSObject

/-! ## The control-events extraction link (source lines 62–81)

The body of the inline `ApolloLink` wrapped as the `"controlMessages"` stage:

```
const { variables: { [CONTROL_EVENTS_KEY]: controlEvents, ...variables } }
  = operation;
if (typeof controlEvents !== "undefined") { operation.variables = variables; }
observer.next({ [CONTROL_EVENTS_KEY]: controlEvents });
```
-/

/-- Result of running the extraction body on one operation: the (possibly
mutated) operation together with the object passed to `observer.next`, or the
JavaScript fault the body raises. -/
def controlEventsStage (operation : Operation) :
    Except String (Operation × JSObject) :=
  match operation.«variables» with
  | none =>
      -- destructuring `{ [k]: c, ...rest }` out of `undefined` throws
      Except.error "TypeError: cannot destructure operation.variables"
  | some vars =>
      let controlEvents := jsGet vars CONTROL_EVENTS_KEY
      let «variables» := jsRest vars CONTROL_EVENTS_KEY
      let operation :=
        if controlEvents.typeof != "undefined" then
          { operation with «variables» := some «variables» }
        else operation
      Except.ok (operation, [(CONTROL_EVENTS_KEY, controlEvents)])

/-! ## Links and the factory (source lines 38–122) -/

/-- Modelled from the spec: the structured real-time configuration carries
"at least the endpoint URL plus real-time-transport-specific settings"
(`./types` is not under src/); the factory only reads its `url` field and
passes the whole object on. -/
structure AppSyncRealTimeSubscriptionConfig where
  url : String
  settings : List (String × JSValue)

/-- The link objects the factory constructs, as a syntax tree. A
caller-supplied results-fetcher link is an opaque leaf `custom`. -/
inductive Link where
  | httpLink (uri : String) : Link
  | controlEventsLink : Link
  | nonTerminating (contextKey : String) (link : Link) : Link
  | subscriptionHandshake (subsInfoContextKey : String) : Link
  | appSyncRealTime (config : AppSyncRealTimeSubscriptionConfig) : Link
  | fromChain (links : List Link) : Link
  | split (subscriptionLinks resultsFetcherLink : Link) : Link
  | custom (id : Nat) : Link

/-- The first argument of `createSubscriptionHandshakeLink`: either a bare URL
string or a structured configuration object (the source discriminates with
`typeof infoOrUrl === "string"`). -/
inductive InfoOrUrl where
  | url (s : String) : InfoOrUrl
  | config (c : AppSyncRealTimeSubscriptionConfig) : InfoOrUrl

/-- The factory `createSubscriptionHandshakeLink(infoOrUrl, theResultsFetcherLink?)`,
source lines 46–122. -/
def createSubscriptionHandshakeLink (infoOrUrl : InfoOrUrl)
    (theResultsFetcherLink : Option Link) : Link :=
  match infoOrUrl with
  | .url u =>
      let resultsFetcherLink := theResultsFetcherLink.getD (.httpLink u)
      let subscriptionLinks := Link.fromChain [
        .nonTerminating "controlMessages" .controlEventsLink,
        .nonTerminating "subsInfo" resultsFetcherLink,
        .subscriptionHandshake "subsInfo"]
      .split subscriptionLinks resultsFetcherLink
  | .config c =>
      let resultsFetcherLink := theResultsFetcherLink.getD (.httpLink c.url)
      let subscriptionLinks := Link.appSyncRealTime c
      .split subscriptionLinks resultsFetcherLink

/-- The split predicate of source lines 105–118: the main definition's `kind`
is `"OperationDefinition"` and its `operation` is `"subscription"`. `none`
when the document has no main definition (the classifier faults there). -/
def isSubscriptionOperation (query : List GraphQLDefinition) : Option Bool :=
  (getMainDefinition query).map (fun d =>
    d.kind == "OperationDefinition" &&
      d.operationField == some OperationType.subscription)

/-- `ApolloLink.split` dispatch: which branch of a split link handles a given
query document. `none` when the link is not a split or the predicate faults. -/
def dispatchTarget (link : Link) (query : List GraphQLDefinition) :
    Option Link :=
  match link with
  | .split subscriptionLinks resultsFetcherLink =>
      (isSubscriptionOperation query).map (fun b =>
        if b then subscriptionLinks else resultsFetcherLink)
  | _ => none

/-- The results-fetcher the factory resolves (source lines 55–56 and 95):
the caller's link when supplied, else an HTTP link bound to the configured
URL. -/
def factoryResultsFetcherLink (infoOrUrl : InfoOrUrl)
    (theResultsFetcherLink : Option Link) : Link :=
  match infoOrUrl with
  | .url u => theResultsFetcherLink.getD (.httpLink u)
  | .config c => theResultsFetcherLink.getD (.httpLink c.url)

/-- The subscription sub-chain the factory builds (source lines 59–89 and
98). -/
def factorySubscriptionLinks (infoOrUrl : InfoOrUrl)
    (theResultsFetcherLink : Option Link) : Link :=
  match infoOrUrl with
  | .url _ => Link.fromChain [
      .nonTerminating "controlMessages" .controlEventsLink,
      .nonTerminating "subsInfo"
        (factoryResultsFetcherLink infoOrUrl theResultsFetcherLink),
      .subscriptionHandshake "subsInfo"]
  | .config c => Link.appSyncRealTime c

/-- The URL the factory binds the default HTTP results-fetcher to: the string
argument itself, or the `url` field of the structured configuration. -/
def InfoOrUrl.configuredUrl : InfoOrUrl → String
  | .url u => u
  | .config c => c.url

mutual

/-- Whether a link tree contains a `NonTerminatingLink` stage registered under
the given context name (caller-supplied `custom` links are opaque and count as
containing none). -/
def Link.containsNonTerminatingNamed (name : String) : Link → Bool
  | .nonTerminating n inner =>
      n == name || Link.containsNonTerminatingNamed name inner
  | .fromChain links => containsNonTerminatingNamedList name links
  | .split a b =>
      Link.containsNonTerminatingNamed name a ||
        Link.containsNonTerminatingNamed name b
  | _ => false

/-- List version of `Link.containsNonTerminatingNamed` for `fromChain`. -/
def containsNonTerminatingNamedList (name : String) : List Link → Bool
  | [] => false
  | l :: ls =>
      Link.containsNonTerminatingNamed name l ||
        containsNonTerminatingNamedList name ls

end

/-- The factory always returns a split of the subscription sub-chain against
the resolved results-fetcher. -/
theorem createSubscriptionHandshakeLink_eq_split (infoOrUrl : InfoOrUrl)
    (f : Option Link) :
    createSubscriptionHandshakeLink infoOrUrl f =
      Link.split (factorySubscriptionLinks infoOrUrl f)
        (factoryResultsFetcherLink infoOrUrl f) := by
  cases infoOrUrl <;> rfl

/-! ## Helper lemmas on the JS object model -/

/-- Reading a key that is not present yields `undefined`. -/
theorem jsGet_eq_undefined_of_hasKey_false (obj : JSObject) (k : String)
    (h : jsHasKey obj k = false) : jsGet obj k = JSValue.undefined := by
  unfold jsGet
  have hfind : obj.find? (fun p => p.1 == k) = none := by
    rw [List.find?_eq_none]
    intro p hp
    intro hpk
    have : obj.any (fun p => p.1 == k) = true := List.any_of_mem hp hpk
    rw [jsHasKey] at h
    simp [this] at h
  rw [hfind]

/-- The rest-spread really removes the key: it is absent afterwards. -/
theorem jsHasKey_jsRest (obj : JSObject) (k : String) :
    jsHasKey (jsRest obj k) k = false := by
  unfold jsHasKey jsRest
  rw [List.any_eq_false]
  intro p hp
  rw [List.mem_filter] at hp
  have h2 := hp.2
  simp only [bne_iff_ne, ne_eq] at h2
  simp [h2]

/-! ## Claims about the control-events extraction stage -/

/-- C2 counterexample: the claim quantifies over every variables map that
contains the reserved key. For the map that stores `undefined` under the
reserved key the `typeof` guard skips the reassignment, so the resulting
variables are the original map — not the original minus the reserved key
(which would be the empty object). -/
theorem controlEvents_strip_fails_on_stored_undefined :
    (controlEventsStage
        { query := [],
          «variables» := some [(CONTROL_EVENTS_KEY, JSValue.undefined)] }).map
        (fun r => r.1.«variables») ≠
      Except.ok (some (jsRest [(CONTROL_EVENTS_KEY, JSValue.undefined)]
        CONTROL_EVENTS_KEY)) := by
  intro h
  simp [controlEventsStage, jsGet, jsRest, CONTROL_EVENTS_KEY,
    JSValue.typeof, Except.map] at h

/-- C2 (amended: the reserved key must be stored with a value that is not
`undefined`; a stored `undefined` hits the `typeof` guard and is not
stripped): for every operation whose variables map carries a defined value
under the reserved control-events key, the stage succeeds, the resulting
variables are exactly the original map minus the reserved key (all other
keys and values unchanged, in order), and the emitted metadata is the object
carrying the extracted value under the reserved key. -/
theorem controlEvents_extraction_strips_defined_value
    (operation : Operation) (vars : JSObject)
    (hv : operation.«variables» = some vars)
    (hd : (jsGet vars CONTROL_EVENTS_KEY).typeof ≠ "undefined") :
    controlEventsStage operation =
      Except.ok
        ({ operation with
            «variables» := some (jsRest vars CONTROL_EVENTS_KEY) },
         [(CONTROL_EVENTS_KEY, jsGet vars CONTROL_EVENTS_KEY)]) := by
  unfold controlEventsStage
  rw [hv]
  have hb : ((jsGet vars CONTROL_EVENTS_KEY).typeof != "undefined") = true :=
    bne_iff_ne.mpr hd
  simp [hb]

/-- C2 witness: the spec's literal example. Variables
`{ a: 1, [CONTROL_EVENTS_KEY]: {x: true} }` become exactly `{ a: 1 }` and the
emitted metadata is `{ [CONTROL_EVENTS_KEY]: {x: true} }`. -/
theorem controlEvents_extraction_strips_defined_value_witness :
    controlEventsStage
        { query := [],
          «variables» := some [("a", JSValue.number 1),
            (CONTROL_EVENTS_KEY, JSValue.object [("x", JSValue.boolean true)])] } =
      Except.ok
        ({ query := [], «variables» := some [("a", JSValue.number 1)] },
         [(CONTROL_EVENTS_KEY, JSValue.object [("x", JSValue.boolean true)])]) :=
  controlEvents_extraction_strips_defined_value
    { query := [],
      «variables» := some [("a", JSValue.number 1),
        (CONTROL_EVENTS_KEY, JSValue.object [("x", JSValue.boolean true)])] }
    [("a", JSValue.number 1),
      (CONTROL_EVENTS_KEY, JSValue.object [("x", JSValue.boolean true)])]
    rfl (by decide)

/-- C3 counterexample: when `operation.variables` is entirely absent
(`undefined`), the nested destructuring of source line 67 throws a
`TypeError`; the stage does not treat this as "no control event". -/
theorem controlEvents_stage_faults_on_absent_variables :
    controlEventsStage { query := [], «variables» := none } =
      Except.error "TypeError: cannot destructure operation.variables" := rfl

/-- C3 (amended: the reserved-key lookup never throws whenever the variables
map is PRESENT — possibly empty or lacking the reserved key, which is treated
as no control event with extracted value `undefined`; the lookup does throw
when the variables map is entirely absent, though inside an Apollo pipeline
variables is always an object): for every operation with a present variables
map the stage succeeds, and when the reserved key is absent it emits the
metadata object carrying `undefined`. -/
theorem controlEvents_stage_total_on_present_variables
    (operation : Operation) (vars : JSObject)
    (hv : operation.«variables» = some vars) :
    (∃ r, controlEventsStage operation = Except.ok r) ∧
    (jsHasKey vars CONTROL_EVENTS_KEY = false →
      controlEventsStage operation =
        Except.ok (operation, [(CONTROL_EVENTS_KEY, JSValue.undefined)])) := by
  constructor
  · unfold controlEventsStage
    rw [hv]
    exact ⟨_, rfl⟩
  · intro hk
    have hg := jsGet_eq_undefined_of_hasKey_false vars CONTROL_EVENTS_KEY hk
    unfold controlEventsStage
    rw [hv]
    simp [hg, JSValue.typeof]

/-- C3 witness: the amended claim at the concrete variables map `{ a: 1 }`
(present, no reserved key). -/
theorem controlEvents_stage_total_on_present_variables_witness :
    (∃ r, controlEventsStage
        { query := [], «variables» := some [("a", JSValue.number 1)] } =
          Except.ok r) ∧
    (jsHasKey [("a", JSValue.number 1)] CONTROL_EVENTS_KEY = false →
      controlEventsStage
          { query := [], «variables» := some [("a", JSValue.number 1)] } =
        Except.ok ({ query := [], «variables» := some [("a", JSValue.number 1)] },
          [(CONTROL_EVENTS_KEY, JSValue.undefined)])) :=
  controlEvents_stage_total_on_present_variables _ _ rfl

/-- C4: for every operation whose variables map does not contain the reserved
control-events key, the stage leaves the operation (and hence its variables)
unchanged and still emits metadata unconditionally: the object whose reserved
key is present with value `undefined`. -/
theorem controlEvents_stage_absent_key_passthrough
    (operation : Operation) (vars : JSObject)
    (hv : operation.«variables» = some vars)
    (hk : jsHasKey vars CONTROL_EVENTS_KEY = false) :
    controlEventsStage operation =
      Except.ok (operation, [(CONTROL_EVENTS_KEY, JSValue.undefined)]) ∧
    jsHasKey [(CONTROL_EVENTS_KEY, JSValue.undefined)] CONTROL_EVENTS_KEY
      = true := by
  constructor
  · have hg := jsGet_eq_undefined_of_hasKey_false vars CONTROL_EVENTS_KEY hk
    unfold controlEventsStage
    rw [hv]
    simp [hg, JSValue.typeof]
  · simp [jsHasKey]

/-- C4 witness: the spec's literal example `{ a: 1 }`: variables unchanged and
metadata `{ [CONTROL_EVENTS_KEY]: undefined }`. -/
theorem controlEvents_stage_absent_key_passthrough_witness :
    controlEventsStage
        { query := [], «variables» := some [("a", JSValue.number 1)] } =
      Except.ok ({ query := [], «variables» := some [("a", JSValue.number 1)] },
        [(CONTROL_EVENTS_KEY, JSValue.undefined)]) ∧
    jsHasKey [(CONTROL_EVENTS_KEY, JSValue.undefined)] CONTROL_EVENTS_KEY
      = true :=
  controlEvents_stage_absent_key_passthrough _ _ rfl (by decide)

/-- C5 counterexample: the invariant is claimed "regardless of what value
(including undefined) was stored under the key", but when the stored value is
`undefined` the `typeof` guard skips the reassignment and the reserved key is
still present in the operation's variables after the stage. -/
theorem controlEvents_reserved_key_survives_stored_undefined :
    (controlEventsStage
        { query := [],
          «variables» := some [("a", JSValue.number 1),
            (CONTROL_EVENTS_KEY, JSValue.undefined)] }).map
        (fun r => r.1.«variables».map (fun m => jsHasKey m CONTROL_EVENTS_KEY))
      = Except.ok (some true) := rfl

/-- C5 (amended: the invariant holds for every stored value EXCEPT a stored
`undefined`, which the `typeof` guard leaves in place): for every operation
whose variables map carries a defined value under the reserved key, the
operation coming out of the stage has a variables map — the original minus
the reserved key — in which the reserved key is no longer present. -/
theorem controlEvents_reserved_key_stripped_when_defined
    (operation op2 : Operation) (vars meta : JSObject)
    (hv : operation.«variables» = some vars)
    (hd : (jsGet vars CONTROL_EVENTS_KEY).typeof ≠ "undefined")
    (hr : controlEventsStage operation = Except.ok (op2, meta)) :
    op2.«variables» = some (jsRest vars CONTROL_EVENTS_KEY) ∧
    jsHasKey (jsRest vars CONTROL_EVENTS_KEY) CONTROL_EVENTS_KEY = false := by
  unfold controlEventsStage at hr
  rw [hv] at hr
  have hb : ((jsGet vars CONTROL_EVENTS_KEY).typeof != "undefined") = true :=
    bne_iff_ne.mpr hd
  simp [hb] at hr
  refine ⟨?_, jsHasKey_jsRest vars CONTROL_EVENTS_KEY⟩
  rw [← hr.1]

/-- C5 witness: for variables `{ a: 1, [CONTROL_EVENTS_KEY]: true }` the
post-stage variables are `{ a: 1 }` and the reserved key is absent from
them. -/
theorem controlEvents_reserved_key_stripped_when_defined_witness :
    Operation.«variables»
        { query := [], «variables» := some [("a", JSValue.number 1)] } =
      some (jsRest [("a", JSValue.number 1),
        (CONTROL_EVENTS_KEY, JSValue.boolean true)] CONTROL_EVENTS_KEY) ∧
    jsHasKey (jsRest [("a", JSValue.number 1),
        (CONTROL_EVENTS_KEY, JSValue.boolean true)] CONTROL_EVENTS_KEY)
      CONTROL_EVENTS_KEY = false :=
  controlEvents_reserved_key_stripped_when_defined
    { query := [],
      «variables» := some [("a", JSValue.number 1),
        (CONTROL_EVENTS_KEY, JSValue.boolean true)] }
    { query := [], «variables» := some [("a", JSValue.number 1)] }
    [("a", JSValue.number 1), (CONTROL_EVENTS_KEY, JSValue.boolean true)]
    [(CONTROL_EVENTS_KEY, JSValue.boolean true)]
    rfl (by decide) rfl

/-! ## Claims about dispatch and the factory -/

/-- C1: an operation whose query's main definition is an operation definition
is routed by the split link the factory returns: to the subscription
sub-chain when its operation type is `subscription`, and to the
results-fetcher link for the other operation types (`query`, `mutation`). -/
theorem dispatch_routes_by_main_operation_type
    (infoOrUrl : InfoOrUrl) (f : Option Link) (q : List GraphQLDefinition)
    (op : OperationType)
    (h : getMainDefinition q = some (.operationDefinition op)) :
    dispatchTarget (createSubscriptionHandshakeLink infoOrUrl f) q =
      some (if op = .subscription then factorySubscriptionLinks infoOrUrl f
            else factoryResultsFetcherLink infoOrUrl f) := by
  rw [createSubscriptionHandshakeLink_eq_split]
  simp [dispatchTarget, isSubscriptionOperation, h,
    GraphQLDefinition.kind, GraphQLDefinition.operationField]

/-- C1 witness: a literal subscription document on the bare-URL factory is
routed to the subscription sub-chain branch of the split. -/
theorem dispatch_routes_by_main_operation_type_witness :
    dispatchTarget
        (createSubscriptionHandshakeLink (.url "https://example/graphql") none)
        [GraphQLDefinition.operationDefinition .subscription] =
      some (if OperationType.subscription = .subscription then
              factorySubscriptionLinks (.url "https://example/graphql") none
            else factoryResultsFetcherLink (.url "https://example/graphql") none) :=
  dispatch_routes_by_main_operation_type (.url "https://example/graphql") none
    [GraphQLDefinition.operationDefinition .subscription] .subscription rfl

/-- C10: a document whose main definition is a fragment definition fails the
`kind === "OperationDefinition"` conjunct of the split predicate, so the
predicate is `false` and the operation is routed to the results-fetcher link,
not the subscription sub-chain. -/
theorem fragment_main_definition_routes_to_results_fetcher
    (infoOrUrl : InfoOrUrl) (f : Option Link) (q : List GraphQLDefinition)
    (name : String)
    (h : getMainDefinition q = some (.fragmentDefinition name)) :
    isSubscriptionOperation q = some false ∧
    dispatchTarget (createSubscriptionHandshakeLink infoOrUrl f) q =
      some (factoryResultsFetcherLink infoOrUrl f) := by
  have hp : isSubscriptionOperation q = some false := by
    simp [isSubscriptionOperation, h, GraphQLDefinition.kind,
      GraphQLDefinition.operationField]
  refine ⟨hp, ?_⟩
  rw [createSubscriptionHandshakeLink_eq_split]
  simp [dispatchTarget, hp]

/-- C10 witness: a document holding only the fragment definition `F` is
routed to the results-fetcher of the bare-URL factory. -/
theorem fragment_main_definition_routes_to_results_fetcher_witness :
    isSubscriptionOperation [GraphQLDefinition.fragmentDefinition "F"]
      = some false ∧
    dispatchTarget
        (createSubscriptionHandshakeLink (.url "https://example/graphql") none)
        [GraphQLDefinition.fragmentDefinition "F"] =
      some (factoryResultsFetcherLink (.url "https://example/graphql") none) :=
  fragment_main_definition_routes_to_results_fetcher
    (.url "https://example/graphql") none
    [GraphQLDefinition.fragmentDefinition "F"] "F" rfl

/-- C6: on a bare URL string, the factory's subscription sub-chain is exactly
the three-stage `ApolloLink.from` composition — the control-events extraction
link wrapped as the non-terminating stage `"controlMessages"`, the resolved
results-fetcher wrapped as the non-terminating stage `"subsInfo"`, and a
`SubscriptionHandshakeLink` reading metadata under key `"subsInfo"`. -/
theorem bareUrl_builds_three_stage_chain (u : String) (f : Option Link) :
    createSubscriptionHandshakeLink (.url u) f =
      Link.split
        (Link.fromChain [
          .nonTerminating "controlMessages" .controlEventsLink,
          .nonTerminating "subsInfo" (f.getD (.httpLink u)),
          .subscriptionHandshake "subsInfo"])
        (f.getD (.httpLink u)) := rfl

/-- C7: on a structured configuration object, the subscription path is the
single real-time handshake link constructed from the full configuration, and
(for an absent or opaque caller-supplied results-fetcher) the constructed
link tree contains no non-terminating stage named `"controlMessages"` or
`"subsInfo"`. -/
theorem configShape_realtime_no_intermediate_stages
    (c : AppSyncRealTimeSubscriptionConfig) (f : Option Link)
    (hf : f = none ∨ ∃ n, f = some (Link.custom n)) :
    factorySubscriptionLinks (.config c) f = Link.appSyncRealTime c ∧
    Link.containsNonTerminatingNamed "controlMessages"
      (createSubscriptionHandshakeLink (.config c) f) = false ∧
    Link.containsNonTerminatingNamed "subsInfo"
      (createSubscriptionHandshakeLink (.config c) f) = false := by
  refine ⟨rfl, ?_, ?_⟩ <;> rcases hf with rfl | ⟨n, rfl⟩ <;> rfl

/-- C7 witness: the structured configuration `{url: "wss://example/realtime"}`
with no results-fetcher override. -/
theorem configShape_realtime_no_intermediate_stages_witness :
    factorySubscriptionLinks (.config ⟨"wss://example/realtime", []⟩) none =
      Link.appSyncRealTime ⟨"wss://example/realtime", []⟩ ∧
    Link.containsNonTerminatingNamed "controlMessages"
      (createSubscriptionHandshakeLink
        (.config ⟨"wss://example/realtime", []⟩) none) = false ∧
    Link.containsNonTerminatingNamed "subsInfo"
      (createSubscriptionHandshakeLink
        (.config ⟨"wss://example/realtime", []⟩) none) = false :=
  configShape_realtime_no_intermediate_stages
    ⟨"wss://example/realtime", []⟩ none (Or.inl rfl)

/-- C8: with no results-fetcher supplied, the factory resolves the
results-fetcher to an HTTP link bound to the configured URL (the string
argument, or the `url` field of the structured configuration), and the
dispatch of a non-subscription operation delegates to that HTTP link. -/
theorem default_results_fetcher_http
    (infoOrUrl : InfoOrUrl) (q : List GraphQLDefinition) (op : OperationType)
    (h : getMainDefinition q = some (.operationDefinition op))
    (hns : op ≠ .subscription) :
    factoryResultsFetcherLink infoOrUrl none =
      Link.httpLink infoOrUrl.configuredUrl ∧
    dispatchTarget (createSubscriptionHandshakeLink infoOrUrl none) q =
      some (Link.httpLink infoOrUrl.configuredUrl) := by
  have h1 : factoryResultsFetcherLink infoOrUrl none =
      Link.httpLink infoOrUrl.configuredUrl := by
    cases infoOrUrl <;> rfl
  refine ⟨h1, ?_⟩
  rw [createSubscriptionHandshakeLink_eq_split, h1]
  cases op with
  | subscription => exact absurd rfl hns
  | query =>
      simp [dispatchTarget, isSubscriptionOperation, h,
        GraphQLDefinition.kind, GraphQLDefinition.operationField]
  | mutation =>
      simp [dispatchTarget, isSubscriptionOperation, h,
        GraphQLDefinition.kind, GraphQLDefinition.operationField]

/-- C8 witness: the spec's literal example — `createLink("https://example/graphql")`
with a query document delegates to the HTTP link with that URI. -/
theorem default_results_fetcher_http_witness :
    factoryResultsFetcherLink (.url "https://example/graphql") none =
      Link.httpLink (InfoOrUrl.configuredUrl (.url "https://example/graphql")) ∧
    dispatchTarget
        (createSubscriptionHandshakeLink (.url "https://example/graphql") none)
        [GraphQLDefinition.operationDefinition .query] =
      some (Link.httpLink
        (InfoOrUrl.configuredUrl (.url "https://example/graphql"))) :=
  default_results_fetcher_http (.url "https://example/graphql")
    [GraphQLDefinition.operationDefinition .query] .query rfl (by decide)

/-! ## Per-operation isolation (C9)

The extraction link closes over nothing but the one operation handed to it
(and the constant `CONTROL_EVENTS_KEY`); the only state it touches is that
operation's own `variables` field. A link instance handling several in-flight
operations is modelled as a list of per-operation objects, and running the
stage on one of them as updating that position only. -/

/-- Effect of the extraction body on the per-operation object: the mutated
operation on success; a thrown fault leaves the object as it was. -/
def applyControlEvents (operation : Operation) : Operation :=
  match controlEventsStage operation with
  | .ok r => r.1
  | .error _ => operation

/-- The metadata object the stage emits for one operation (`none` when the
body faults before reaching `observer.next`). -/
def emittedControlEvents (operation : Operation) : Option JSObject :=
  match controlEventsStage operation with
  | .ok r => some r.2
  | .error _ => none

/-- Running the extraction stage on the i-th in-flight operation of a link
instance. -/
def processOperationAt : List Operation → Nat → List Operation
  | [], _ => []
  | operation :: ops, 0 => applyControlEvents operation :: ops
  | operation :: ops, n + 1 => operation :: processOperationAt ops n

/-- Positions other than the processed one are untouched. -/
theorem processOperationAt_getElem_ne :
    ∀ (ops : List Operation) (i j : Nat), i ≠ j →
      (processOperationAt ops i)[j]? = ops[j]?
  | [], _, _, _ => rfl
  | _ :: _, 0, 0, h => absurd rfl h
  | _ :: _, 0, _ + 1, _ => by simp [processOperationAt]
  | _ :: _, _ + 1, 0, _ => by simp [processOperationAt]
  | _ :: ops, i + 1, j + 1, h => by
      simp only [processOperationAt, List.getElem?_cons_succ]
      exact processOperationAt_getElem_ne ops i j (by omega)

/-- The processed position holds exactly the stage's effect on the operation
that was there. -/
theorem processOperationAt_getElem_self :
    ∀ (ops : List Operation) (i : Nat),
      (processOperationAt ops i)[i]? = (ops[i]?).map applyControlEvents
  | [], _ => by simp [processOperationAt]
  | _ :: _, 0 => by simp [processOperationAt]
  | _ :: ops, i + 1 => by
      simp only [processOperationAt, List.getElem?_cons_succ]
      exact processOperationAt_getElem_self ops i

/-- C9: running the extraction stage on operation A (position i) leaves every
other in-flight operation B (position j) untouched — same per-operation
object, hence same variables and same emitted metadata — and the outcome of
later processing B is the same whether or not A was processed first. -/
theorem controlEvents_operation_isolation
    (ops : List Operation) (i j : Nat) (hij : i ≠ j) :
    (processOperationAt ops i)[j]? = ops[j]? ∧
    ((processOperationAt ops i)[j]?).map (fun b => b.«variables») =
      (ops[j]?).map (fun b => b.«variables») ∧
    ((processOperationAt ops i)[j]?).map emittedControlEvents =
      (ops[j]?).map emittedControlEvents ∧
    (processOperationAt (processOperationAt ops i) j)[j]? =
      (processOperationAt ops j)[j]? := by
  have h1 := processOperationAt_getElem_ne ops i j hij
  refine ⟨h1, by rw [h1], by rw [h1], ?_⟩
  rw [processOperationAt_getElem_self, processOperationAt_getElem_self, h1]

/-- C9 witness: two concrete in-flight operations — A carrying a control
event, B a plain query — with A processed at position 0 and B read at
position 1. -/
theorem controlEvents_operation_isolation_witness :
    (processOperationAt
        [{ query := [GraphQLDefinition.operationDefinition .subscription],
           «variables» := some [(CONTROL_EVENTS_KEY, JSValue.boolean true)] },
         { query := [GraphQLDefinition.operationDefinition .query],
           «variables» := some [("b", JSValue.number 2)] }] 0)[1]? =
      [{ query := [GraphQLDefinition.operationDefinition .subscription],
         «variables» := some [(CONTROL_EVENTS_KEY, JSValue.boolean true)] },
       { query := [GraphQLDefinition.operationDefinition .query],
         «variables» := some [("b", JSValue.number 2)] }][1]? ∧
    ((processOperationAt
        [{ query := [GraphQLDefinition.operationDefinition .subscription],
           «variables» := some [(CONTROL_EVENTS_KEY, JSValue.boolean true)] },
         { query := [GraphQLDefinition.operationDefinition .query],
           «variables» := some [("b", JSValue.number 2)] }] 0)[1]?).map
        (fun b => b.«variables») =
      (([{ query := [GraphQLDefinition.operationDefinition .subscription],
           «variables» := some [(CONTROL_EVENTS_KEY, JSValue.boolean true)] },
         { query := [GraphQLDefinition.operationDefinition .query],
           «variables» := some [("b", JSValue.number 2)] }] : List Operation)[1]?).map
        (fun b => b.«variables») ∧
    ((processOperationAt
        [{ query := [GraphQLDefinition.operationDefinition .subscription],
           «variables» := some [(CONTROL_EVENTS_KEY, JSValue.boolean true)] },
         { query := [GraphQLDefinition.operationDefinition .query],
           «variables» := some [("b", JSValue.number 2)] }] 0)[1]?).map
        emittedControlEvents =
      (([{ query := [GraphQLDefinition.operationDefinition .subscription],
           «variables» := some [(CONTROL_EVENTS_KEY, JSValue.boolean true)] },
         { query := [GraphQLDefinition.operationDefinition .query],
           «variables» := some [("b", JSValue.number 2)] }] : List Operation)[1]?).map
        emittedControlEvents ∧
    (processOperationAt (processOperationAt
        [{ query := [GraphQLDefinition.operationDefinition .subscription],
           «variables» := some [(CONTROL_EVENTS_KEY, JSValue.boolean true)] },
         { query := [GraphQLDefinition.operationDefinition .query],
           «variables» := some [("b", JSValue.number 2)] }] 0) 1)[1]? =
      (processOperationAt
        [{ query := [GraphQLDefinition.operationDefinition .subscription],
           «variables» := some [(CONTROL_EVENTS_KEY, JSValue.boolean true)] },
         { query := [GraphQLDefinition.operationDefinition .query],
           «variables» := some [("b", JSValue.number 2)] }] 1)[1]? :=
  controlEvents_operation_isolation
    [{ query := [GraphQLDefinition.operationDefinition .subscription],
       «variables» := some [(CONTROL_EVENTS_KEY, JSValue.boolean true)] },
     { query := [GraphQLDefinition.operationDefinition .query],
       «variables» := some [("b", JSValue.number 2)] }] 0 1 (by decide)

end AppSync
